import Mathlib

/-!
Verification of the behavior of `main.py`, a small script that defines a
greeting formatter `greet`, a summation helper `calculate_sum`, and an
entry block (guarded by the module-is-entry-point check) that prints four
lines: a greeting, the sum of a literal number list, a list of squares,
and a person record.

The embedding models Python values with the inductive type `PyVal`,
Python string conversion (`str`/`repr`) with `pyStr`/`pyRepr`, the `+`
operator and the `sum` builtin with `pyAdd`/`pySum` returning `Except`
to capture `TypeError`, f-string interpolation with `fstring`, and the
guarded entry block as a sequence of statement transformers over a
`PyState` holding the three local bindings and the accumulated standard
output.
-/

namespace GenAiDigest

/-- The Python values this program manipulates: integers, text strings,
lists, and string-keyed dictionaries (insertion order preserved, as in
Python 3.7+). -/
inductive PyVal where
  | int (n : Int)
  | str (s : String)
  | list (xs : List PyVal)
  | dict (entries : List (String × PyVal))

mutual
/-- Python `repr` of a value: decimal for integers, single quotes around
text (the program only ever displays text containing no quotes or
escapes, for which CPython uses exactly this form), square-bracketed
comma-separated element reprs for lists, and braced comma-separated
key-value pairs for dictionaries. -/
def pyRepr : PyVal → String
  | .int n => toString n
  | .str s => "\x27" ++ s ++ "\x27"
  | .list xs => "[" ++ pyReprList xs ++ "]"
  | .dict es => "\x7b" ++ pyReprDict es ++ "\x7d"
/-- The comma-separated interior of a list repr. -/
def pyReprList : List PyVal → String
  | [] => ""
  | [v] => pyRepr v
  | v :: rest => pyRepr v ++ ", " ++ pyReprList rest
/-- The comma-separated interior of a dictionary repr. -/
def pyReprDict : List (String × PyVal) → String
  | [] => ""
  | [(k, v)] => "\x27" ++ k ++ "\x27: " ++ pyRepr v
  | (k, v) :: rest => "\x27" ++ k ++ "\x27: " ++ pyRepr v ++ ", " ++ pyReprDict rest
end

/-- Python `str` of a value, as used by f-string interpolation with no
format spec: a text string converts to itself, every other value to its
`repr`. -/
def pyStr : PyVal → String
  | .str s => s
  | v => pyRepr v

/-- One piece of an f-string: literal text, or an interpolated value. -/
inductive FStrPart where
  | lit (s : String)
  | expr (v : PyVal)

/-- Evaluate an f-string: concatenate the pieces left to right, sending
each interpolated value through `pyStr`. -/
def fstring (parts : List FStrPart) : String :=
  parts.foldl
    (fun acc p => acc ++ match p with | .lit s => s | .expr v => pyStr v) ""

/-- `greet` from `main.py`: `return f"Hello, {name}!"`. -/
def greet (name : PyVal) : String :=
  fstring [.lit "Hello, ", .expr name, .lit "!"]

/-- Python `+` on the modelled values: integer addition, string
concatenation and list concatenation succeed; every other combination
raises `TypeError`. -/
def pyAdd : PyVal → PyVal → Except String PyVal
  | .int a, .int b => .ok (.int (a + b))
  | .str a, .str b => .ok (.str (a ++ b))
  | .list a, .list b => .ok (.list (a ++ b))
  | _, _ => .error "TypeError"

/-- The Python `sum` builtin on a list: fold `+` over the elements from
left to right starting from the integer `0`; a non-list argument is not
iterable here and fails. -/
def pySum : PyVal → Except String PyVal
  | .list xs => xs.foldlM pyAdd (.int 0)
  | _ => .error "TypeError"

/-- `calculate_sum` from `main.py`: `return sum(numbers)`. -/
def calculate_sum (numbers : PyVal) : Except String PyVal :=
  pySum numbers

/-- Python `len` on the modelled containers. -/
def pyLen : PyVal → Except String Nat
  | .str s => .ok s.length
  | .list xs => .ok xs.length
  | .dict es => .ok es.length
  | _ => .error "TypeError"

/-- The literal list `[1, 2, 3, 4, 5]` bound to `numbers` by the entry
block. -/
def numbersVal : PyVal :=
  .list [.int 1, .int 2, .int 3, .int 4, .int 5]

/-- The list comprehension `[x**2 for x in range(5)]` bound to
`squares` by the entry block: `x**2` applied to each element of the
range `0..4`. -/
def squaresVal : PyVal :=
  .list ((List.range 5).map (fun x => .int (Int.pow (Int.ofNat x) 2)))

/-- The dictionary literal bound to `person` by the entry block, with
its three fields in source order. -/
def personVal : PyVal :=
  .dict [("name", .str "Alice"), ("age", .int 30), ("city", .str "Python Land")]

/-- The state of the entry block: the three local bindings (absent until
their assignment runs) and the lines written to standard output so far. -/
structure PyState where
  numbers : Option PyVal
  squares : Option PyVal
  person : Option PyVal
  output : List String

/-- The state before any statement of the module has run: no bindings,
no output. -/
def initState : PyState :=
  { numbers := none, squares := none, person := none, output := [] }

/-- Statement 1 of the entry block: `print(greet("World"))`. -/
def stmt1 (s : PyState) : Except String PyState :=
  .ok { s with output := s.output ++ [greet (.str "World")] }

/-- Statement 2 of the entry block: `numbers = [1, 2, 3, 4, 5]`. -/
def stmt2 (s : PyState) : Except String PyState :=
  .ok { s with numbers := some numbersVal }

/-- Statement 3 of the entry block:
`print(f"Sum of numbers {numbers}: {calculate_sum(numbers)}")`. Reading
an unbound name raises `NameError`; a `TypeError` from the sum
propagates. -/
def stmt3 (s : PyState) : Except String PyState :=
  match s.numbers with
  | none => .error "NameError: numbers"
  | some nv =>
      match calculate_sum nv with
      | .error e => .error e
      | .ok sv =>
          .ok { s with output := s.output ++
                  [fstring [.lit "Sum of numbers ", .expr nv, .lit ": ", .expr sv]] }

/-- Statement 4 of the entry block: `squares = [x**2 for x in range(5)]`. -/
def stmt4 (s : PyState) : Except String PyState :=
  .ok { s with squares := some squaresVal }

/-- Statement 5 of the entry block:
`print(f"First 5 square numbers: {squares}")`. -/
def stmt5 (s : PyState) : Except String PyState :=
  match s.squares with
  | none => .error "NameError: squares"
  | some sv =>
      .ok { s with output := s.output ++
              [fstring [.lit "First 5 square numbers: ", .expr sv]] }

/-- Statement 6 of the entry block: the `person = {...}` dictionary
assignment. -/
def stmt6 (s : PyState) : Except String PyState :=
  .ok { s with person := some personVal }

/-- Statement 7 of the entry block: `print(f"Person details: {person}")`. -/
def stmt7 (s : PyState) : Except String PyState :=
  match s.person with
  | none => .error "NameError: person"
  | some pv =>
      .ok { s with output := s.output ++
              [fstring [.lit "Person details: ", .expr pv]] }

/-- The body of the `if __name__ == "__main__":` block: the seven
statements in source order, stopping at the first uncaught failure. -/
def runMain (s0 : PyState) : Except String PyState := do
  let s1 ← stmt1 s0
  let s2 ← stmt2 s1
  let s3 ← stmt3 s2
  let s4 ← stmt4 s3
  let s5 ← stmt5 s4
  let s6 ← stmt6 s5
  stmt7 s6

/-- Executing the module: the definitions of `greet` and `calculate_sum`
always take effect (they are plain function definitions, already part of
this development); the guarded entry block runs only when the module is
the entry point (`__name__ == "__main__"`). -/
def runModule (isMain : Bool) (s : PyState) : Except String PyState :=
  if isMain then runMain s else .ok s

/-- A full run of the script as the entry point, from the empty state. -/
def mainRun : Except String PyState :=
  runMain initState

/-- External input a process could observe: command-line arguments,
environment variables, standard input. `main.py` consults none of them:
no name of the source refers to them, so the translated run does not
either. -/
structure ProcInput where
  argv : List String
  env : List (String × String)
  stdin : String

/-- Running the script as the entry point in the presence of external
input: the source reads none of it, so the run is `mainRun` regardless. -/
def runProcess (_inp : ProcInput) : Except String PyState :=
  runMain initState

/-- The process exit code: default success (0) when execution reaches
the end, 1 when an uncaught runtime failure terminates the process. -/
def exitCode : Except String PyState → Int
  | .ok _ => 0
  | .error _ => 1

/-- A statement transformer neither rebinds nor unbinds any of the three
locals: whenever it runs on a state, each binding in the result is the
binding it started from. -/
def preservesBindings (f : PyState → Except String PyState) : Prop :=
  ∀ s : PyState,
    (f s).map PyState.numbers = (f s).map (fun _ => s.numbers) ∧
    (f s).map PyState.squares = (f s).map (fun _ => s.squares) ∧
    (f s).map PyState.person = (f s).map (fun _ => s.person)

/-- Folding `pyAdd` over a list of integer values starting from an
integer accumulator succeeds and adds up the integers. -/
theorem foldlM_pyAdd_int (xs : List Int) :
    ∀ a : Int, List.foldlM pyAdd (PyVal.int a) (xs.map PyVal.int) =
      .ok (.int (a + xs.sum)) := by
  induction xs with
  | nil => intro a; simp [List.foldlM]; rfl
  | cons x xs ih =>
      intro a
      have h : List.foldlM pyAdd (PyVal.int a) ((x :: xs).map PyVal.int) =
          .ok (.int (a + x + xs.sum)) := ih (a + x)
      rw [h]
      simp [add_assoc]

/-- Whether a value is a Python integer. -/
def isIntVal : PyVal → Bool
  | .int _ => true
  | _ => false

/-- The integer carried by a Python integer value (0 otherwise). -/
def intOf : PyVal → Int
  | .int n => n
  | _ => 0

/-- Folding `pyAdd` from an integer accumulator over a list whose
members are all integers adds up the carried integers. -/
theorem foldlM_pyAdd_allInt (vs : List PyVal) :
    ∀ a : Int, (∀ v ∈ vs, isIntVal v = true) →
      List.foldlM pyAdd (PyVal.int a) vs = .ok (.int (a + (vs.map intOf).sum)) := by
  induction vs with
  | nil => intro a _; simp [List.foldlM]; rfl
  | cons v vs ih =>
      intro a h
      have hv : isIntVal v = true := h v (List.mem_cons_self v vs)
      cases v with
      | int n =>
          have h2 := ih (a + n) (fun w hw => h w (List.mem_cons_of_mem _ hw))
          have h3 : List.foldlM pyAdd (PyVal.int a) (PyVal.int n :: vs) =
              .ok (.int (a + n + (vs.map intOf).sum)) := h2
          rw [h3]
          simp [intOf, add_assoc]
      | str s => simp [isIntVal] at hv
      | list l => simp [isIntVal] at hv
      | dict d => simp [isIntVal] at hv

/-- Folding `pyAdd` from an integer accumulator over a list holding any
non-integer raises `TypeError`. -/
theorem foldlM_pyAdd_typeError (vs : List PyVal) :
    ∀ a : Int, (¬ ∀ v ∈ vs, isIntVal v = true) →
      List.foldlM pyAdd (PyVal.int a) vs = .error "TypeError" := by
  induction vs with
  | nil => intro a h; exact absurd (by simp) h
  | cons v vs ih =>
      intro a h
      cases v with
      | int n =>
          have hrest : ¬ ∀ w ∈ vs, isIntVal w = true := fun hall =>
            h (fun w hw => by
              rcases List.mem_cons.mp hw with h1 | h2
              · rw [h1]; rfl
              · exact hall w h2)
          exact ih (a + n) hrest
      | str s => rfl
      | list l => rfl
      | dict d => rfl

/-- Claim C1: run as the program entry point, the script writes exactly
four lines to standard output, in this order and literal form, with no
additional output: the greeting, the numbers-and-sum line, the squares
line, and the person line. -/
theorem main_output_exact :
    mainRun.map PyState.output = .ok
      ["Hello, World!",
       "Sum of numbers [1, 2, 3, 4, 5]: 15",
       "First 5 square numbers: [0, 1, 4, 9, 16]",
       "Person details: \x7b\x27name\x27: \x27Alice\x27, \x27age\x27: 30, \x27city\x27: \x27Python Land\x27\x7d"] :=
  rfl

/-- Claim C2: on every ordered sequence of integers, `calculate_sum`
returns their arithmetic sum; in particular it returns 15 on
`[1, 2, 3, 4, 5]` and 0 on the empty sequence. -/
theorem calculate_sum_is_sum :
    (∀ xs : List Int, calculate_sum (.list (xs.map .int)) = .ok (.int xs.sum)) ∧
    calculate_sum (.list [.int 1, .int 2, .int 3, .int 4, .int 5]) = .ok (.int 15) ∧
    calculate_sum (.list []) = .ok (.int 0) := by
  refine ⟨fun xs => ?_, rfl, rfl⟩
  have h := foldlM_pyAdd_int xs 0
  simpa [calculate_sum, pySum] using h

/-- Claim C3: on every text value, `greet` returns the text
`Hello, {name}!` with the name substituted verbatim; in particular
`Hello, World!` on `World` and `Hello, !` on the empty string. -/
theorem greet_text :
    (∀ s : String, greet (.str s) = "Hello, " ++ s ++ "!") ∧
    greet (.str "World") = "Hello, World!" ∧
    greet (.str "") = "Hello, !" :=
  ⟨fun _ => rfl, rfl, rfl⟩

/-- Claim C4: the squares sequence the entry block binds — the map of
`x**2` over the range `0..4` — equals `[0, 1, 4, 9, 16]` and has
length 5. -/
theorem squares_value :
    (∀ s : PyState, (stmt4 s).map PyState.squares = .ok (some squaresVal)) ∧
    squaresVal = .list [.int 0, .int 1, .int 4, .int 9, .int 16] ∧
    pyLen squaresVal = .ok 5 :=
  ⟨fun _ => rfl, rfl, rfl⟩

/-- Claim C5: when the module is imported rather than executed directly
(the entry-point guard is false), none of the print statements run and
nothing is written to standard output; the state is left untouched. -/
theorem import_runs_nothing :
    ∀ s : PyState, runModule false s = .ok s ∧
      (runModule false s).map PyState.output = .ok s.output :=
  fun _ => ⟨rfl, rfl⟩

/-- Claim C6: the program reads no command-line arguments, environment
variables, or standard input, so any two runs as the entry point produce
identical results, namely `mainRun`. -/
theorem run_deterministic :
    ∀ i j : ProcInput, runProcess i = runProcess j ∧ runProcess i = mainRun :=
  fun _ _ => ⟨rfl, rfl⟩

/-- Claim C7: no binding is mutated after creation: every print
statement (including the one that calls `calculate_sum` on `numbers`)
leaves all three bindings unchanged, each assignment leaves the other
bindings unchanged, and at the end of the full run the three bindings
still hold exactly their literal initial values. -/
theorem no_mutation_after_creation :
    preservesBindings stmt1 ∧ preservesBindings stmt3 ∧
    preservesBindings stmt5 ∧ preservesBindings stmt7 ∧
    (∀ s : PyState, (stmt4 s).map PyState.numbers = .ok s.numbers ∧
        (stmt4 s).map PyState.person = .ok s.person) ∧
    (∀ s : PyState, (stmt6 s).map PyState.numbers = .ok s.numbers ∧
        (stmt6 s).map PyState.squares = .ok s.squares) ∧
    mainRun.map PyState.numbers = .ok (some numbersVal) ∧
    mainRun.map PyState.squares = .ok (some squaresVal) ∧
    mainRun.map PyState.person = .ok (some personVal) := by
  refine ⟨fun s => ?_, fun s => ?_, fun s => ?_, fun s => ?_,
    fun s => ⟨rfl, rfl⟩, fun s => ⟨rfl, rfl⟩, rfl, rfl, rfl⟩
  · exact ⟨rfl, rfl, rfl⟩
  · cases h : s.numbers with
    | none => simp [stmt3, h, Except.map]
    | some nv =>
        cases hc : calculate_sum nv with
        | error e => simp [stmt3, h, hc, Except.map]
        | ok sv => simp [stmt3, h, hc, Except.map]
  · cases h : s.squares with
    | none => simp [stmt5, h, Except.map]
    | some sv => simp [stmt5, h, Except.map]
  · cases h : s.person with
    | none => simp [stmt7, h, Except.map]
    | some pv => simp [stmt7, h, Except.map]

/-- Claim C8: a full run as the entry point reaches the end with no
uncaught runtime failure and terminates with the default success exit
code 0. -/
theorem run_succeeds_exit_zero :
    (∃ s : PyState, mainRun = .ok s) ∧ exitCode mainRun = 0 :=
  ⟨⟨_, rfl⟩, rfl⟩

/-- Claim C9: on every value, text or not, `greet` returns the
concatenation of `Hello, `, the string conversion of the value, and `!`,
and never fails (it is a total function into strings); for instance a
non-text integer input yields `Hello, 30!`. -/
theorem greet_any_value :
    (∀ name : PyVal, greet name = "Hello, " ++ pyStr name ++ "!") ∧
    greet (.int 30) = "Hello, 30!" :=
  ⟨fun _ => rfl, rfl⟩

/-- Claim C10: `calculate_sum` is order-independent: permuting the
elements of its argument list never changes its result — permutations
of all-integer lists have equal sums, and permutations of lists with a
non-integer member raise the same `TypeError`. -/
theorem calculate_sum_perm_invariant :
    ∀ xs ys : List PyVal, xs.Perm ys →
      calculate_sum (.list xs) = calculate_sum (.list ys) := by
  intro xs ys hp
  by_cases hall : ∀ v ∈ xs, isIntVal v = true
  · have hall2 : ∀ v ∈ ys, isIntVal v = true := fun v hv =>
      hall v (hp.mem_iff.mpr hv)
    have hsum : (xs.map intOf).sum = (ys.map intOf).sum := (hp.map intOf).sum_eq
    simp [calculate_sum, pySum, foldlM_pyAdd_allInt xs 0 hall,
      foldlM_pyAdd_allInt ys 0 hall2, hsum]
  · have hall2 : ¬ ∀ v ∈ ys, isIntVal v = true := fun hys =>
      hall (fun v hv => hys v (hp.mem_iff.mp hv))
    simp [calculate_sum, pySum, foldlM_pyAdd_typeError xs 0 hall,
      foldlM_pyAdd_typeError ys 0 hall2]

/-- Witness for C10: swapping the two elements of `[2, 1]` leaves the
sum, 3, unchanged. -/
theorem calculate_sum_perm_invariant_witness :
    calculate_sum (.list [.int 2, .int 1]) = calculate_sum (.list [.int 1, .int 2]) ∧
    calculate_sum (.list [.int 2, .int 1]) = .ok (.int 3) :=
  ⟨calculate_sum_perm_invariant _ _ (List.Perm.swap (PyVal.int 1) (PyVal.int 2) []), rfl⟩

end GenAiDigest
